import Mathlib

/-!
Verification of the result-synthesis pipeline of the VerifAI repository
(`analyze_authenticity` and `create_error_response` in `app.py`).

The Python function takes the original news text, a list of reference
articles (JSON-like dicts) and queries an external language model; the
model's reply is an arbitrary string from which a JSON object is
extracted, parsed and normalized into the canonical result record.

Shallow embedding conventions:
  * Python/JSON dynamic values are the inductive type `Json` below.
    JSON numbers are modelled as integers (`Int`); fractional literals,
    which Python decodes as floats, are outside the model (no claim
    under scrutiny involves them, and the parser rejects them).
  * Python dicts are association lists with unique keys, in insertion
    order; `dict.get` is `dGet`.
  * A Python exception propagating out of a piece of code is
    `Except.error msg`; exception texts are abbreviated where no
    behaviour depends on them.
  * The external `ollama.chat` call is a parameter of type `ChatResult`
    (raised exception / malformed envelope / returned content string).
-/

set_option maxRecDepth 4000

namespace VerifAI

/-- The `chr(123)` character (opening curly brace). -/
def obrace : Char := Char.ofNat 123

/-- The `chr(125)` character (closing curly brace). -/
def cbrace : Char := Char.ofNat 125

/-- `chr(123)` as a one-character string. -/
def obs : String := String.singleton obrace

/-- `chr(125)` as a one-character string. -/
def cbs : String := String.singleton cbrace

/-- The `chr(39)` character (single quote), as a string. -/
def sq : String := String.singleton (Char.ofNat 39)

/-- Dynamic values: what Python's `json.loads` returns, which is also the
universe the normalizer computes in. Numbers are integers (see header). -/
inductive Json where
  | null
  | bool (b : Bool)
  | num (n : Int)
  | str (s : String)
  | arr (elems : List Json)
  | obj (fields : List (String × Json))

/-- Python truthiness (`bool(x)` / `if x:`) on JSON-derived values. -/
def pyTruthy : Json → Bool
  | .null => false
  | .bool b => b
  | .num n => n != 0
  | .str s => s != ""
  | .arr xs => !xs.isEmpty
  | .obj kvs => !kvs.isEmpty

/-- Whether a character is ASCII whitespace as stripped by `str.strip()`
(Python also strips some unicode spaces; not modelled). -/
def isPyWs (c : Char) : Bool :=
  (c == ' ') || (c == '\t') || (c == '\n') || (c == '\r') || (c == '\x0b') || (c == '\x0c')

/-- Strip leading and trailing whitespace from a character list. -/
def trimWs (cs : List Char) : List Char :=
  ((cs.dropWhile isPyWs).reverse.dropWhile isPyWs).reverse

/-- Accumulate a decimal value, failing on the first non-digit. -/
def decDigitsAux (acc : Nat) : List Char → Option Nat
  | [] => some acc
  | c :: cs => if c.isDigit then decDigitsAux (acc * 10 + (c.toNat - 48)) cs else none

/-- Decimal value of a non-empty all-digit character list. -/
def decDigits (cs : List Char) : Option Nat :=
  if cs.isEmpty then none else decDigitsAux 0 cs

/-- Python `int(s)` on a string: optional surrounding whitespace, one
optional sign, then decimal digits (digit-group underscores not
modelled). `none` models the `ValueError`. -/
def pyIntOfStr (s : String) : Option Int :=
  match trimWs s.data with
  | '+' :: rest => (decDigits rest).map Int.ofNat
  | '-' :: rest => (decDigits rest).map (fun n => -(n : Int))
  | rest => (decDigits rest).map Int.ofNat

/-- Python `int(x)` coercion on a JSON-derived value; `none` models the
`ValueError`/`TypeError` raised on strings without integer syntax and on
`None`/lists/dicts. -/
def pyInt : Json → Option Int
  | .num n => some n
  | .bool b => some (if b then 1 else 0)
  | .str s => pyIntOfStr s
  | _ => none

mutual
/-- Python `repr` of a JSON-derived value (string escaping and quote
switching inside `repr` are not modelled: strings are wrapped in single
quotes verbatim; no claim depends on the rendering of nested values). -/
def pyRepr : Json → String
  | .null => "None"
  | .bool b => if b then "True" else "False"
  | .num n => toString n
  | .str s => sq ++ s ++ sq
  | .arr xs => "[" ++ String.intercalate ", " (pyReprList xs) ++ "]"
  | .obj kvs => obs ++ String.intercalate ", " (pyReprFields kvs) ++ cbs

/-- `pyRepr` mapped over the elements of a list value. -/
def pyReprList : List Json → List String
  | [] => []
  | x :: xs => pyRepr x :: pyReprList xs

/-- `pyRepr` of each `key: value` entry of a dict value. -/
def pyReprFields : List (String × Json) → List String
  | [] => []
  | (k, v) :: kvs => (sq ++ k ++ sq ++ ": " ++ pyRepr v) :: pyReprFields kvs
end

/-- Python `str(x)`: the string itself for strings, `repr` otherwise. -/
def pyStr : Json → String
  | .str s => s
  | j => pyRepr j

/-- Association-list lookup (first match; keys are unique). -/
def jlookup (kvs : List (String × Json)) (k : String) : Option Json :=
  match kvs with
  | [] => none
  | (k₁, v) :: rest => if k₁ = k then some v else jlookup rest k

/-- Python `d.get(k, dflt)` on a dict. -/
def dGet (kvs : List (String × Json)) (k : String) (dflt : Json) : Json :=
  (jlookup kvs k).getD dflt

/-- Key lookup on a JSON value that is expected to be an object. -/
def jGet : Json → String → Option Json
  | .obj kvs, k => jlookup kvs k
  | _, _ => none

/-- Python `max(lo, min(hi, n))`. -/
def clamp (lo hi n : Int) : Int := max lo (min hi n)

/-! ## JSON decoding (model of Python `json.loads`)

`json.loads` is the standard-library decoder the source calls; it is
embedded here as a fuel-indexed recursive-descent parser over the JSON
grammar with strict defaults: the four JSON whitespace characters,
double-quoted strings with the standard escapes, integers without
leading zeros (fractional/exponent literals decode to Python floats and
are outside the model, so the parser rejects them), `true`/`false`/
`null`, arrays and objects, and no trailing input. `none` models
`json.JSONDecodeError`. -/

/-- JSON inter-token whitespace (`' '`, `'\t'`, `'\n'`, `'\r'`). -/
def isJsonWs (c : Char) : Bool :=
  (c == ' ') || (c == '\t') || (c == '\n') || (c == '\r')

/-- Skip JSON whitespace. -/
def skipWs (cs : List Char) : List Char := cs.dropWhile isJsonWs

/-- Hexadecimal value of a character, if any. -/
def hexVal (c : Char) : Option Nat :=
  if c.isDigit then some (c.toNat - 48)
  else if 'a' ≤ c ∧ c ≤ 'f' then some (c.toNat - 87)
  else if 'A' ≤ c ∧ c ≤ 'F' then some (c.toNat - 55)
  else none

/-- Parse the body of a JSON string literal (after the opening quote),
returning the decoded string and the input after the closing quote.
Surrogate-pair combination for `\uXXXX` escapes is not modelled. -/
def parseJString (acc : List Char) : List Char → Option (String × List Char)
  | [] => none
  | c :: cs =>
    if c == '"' then some (⟨acc.reverse⟩, cs)
    else if c == '\\' then
      match cs with
      | [] => none
      | e :: cs₁ =>
        if e == '"' then parseJString ('"' :: acc) cs₁
        else if e == '\\' then parseJString ('\\' :: acc) cs₁
        else if e == '/' then parseJString ('/' :: acc) cs₁
        else if e == 'b' then parseJString ('\x08' :: acc) cs₁
        else if e == 'f' then parseJString ('\x0c' :: acc) cs₁
        else if e == 'n' then parseJString ('\n' :: acc) cs₁
        else if e == 'r' then parseJString ('\r' :: acc) cs₁
        else if e == 't' then parseJString ('\t' :: acc) cs₁
        else if e == 'u' then
          match cs₁ with
          | h₁ :: h₂ :: h₃ :: h₄ :: cs₂ =>
            match hexVal h₁, hexVal h₂, hexVal h₃, hexVal h₄ with
            | some a, some b, some c₁, some d =>
              parseJString (Char.ofNat (((a * 16 + b) * 16 + c₁) * 16 + d) :: acc) cs₂
            | _, _, _, _ => none
          | _ => none
        else none
    else if c.toNat < 32 then none
    else parseJString (c :: acc) cs

/-- Parse the digit run of a JSON integer: `0`, or a nonzero digit
followed by digits (leading zeros are a decode error). The next
character must not extend the literal into a float (`.`, `e`, `E`):
such literals decode to Python floats, outside the model. -/
def parseJNat : List Char → Option (Nat × List Char)
  | [] => none
  | c :: cs =>
    if !c.isDigit then none
    else
      let rest := cs.dropWhile Char.isDigit
      let digs := c :: cs.takeWhile Char.isDigit
      if c == '0' ∧ digs.length ≠ 1 then none
      else
        match rest with
        | d :: _ => if d == '.' || d == 'e' || d == 'E' then none else (decDigits digs).map (·, rest)
        | [] => (decDigits digs).map (·, rest)

/-- Insert a key into an object under construction, replacing the value
in place when the key repeats (Python dicts keep the first position and
the last value for duplicate keys in one JSON object). -/
def objInsert (kvs : List (String × Json)) (k : String) (v : Json) : List (String × Json) :=
  match kvs with
  | [] => [(k, v)]
  | (k₁, v₁) :: rest => if k₁ = k then (k₁, v) :: rest else (k₁, v₁) :: objInsert rest k v

mutual
/-- Parse one JSON value at the head of the input (no leading-whitespace
skip: callers skip first), returning it and the remaining input. -/
def parseJValue : Nat → List Char → Option (Json × List Char)
  | 0, _ => none
  | _ + 1, [] => none
  | fuel + 1, c :: cs =>
    if c == obrace then
      match skipWs cs with
      | d :: cs₁ => if d == cbrace then some (.obj [], cs₁) else parseJMembers fuel [] (d :: cs₁)
      | [] => none
    else if c == '[' then
      match skipWs cs with
      | d :: cs₁ => if d == ']' then some (.arr [], cs₁) else parseJItems fuel [] (d :: cs₁)
      | [] => none
    else if c == '"' then (parseJString [] cs).map (fun (s, r) => (.str s, r))
    else if c == '-' then (parseJNat cs).map (fun (n, r) => (.num (-(n : Int)), r))
    else if c.isDigit then (parseJNat (c :: cs)).map (fun (n, r) => (.num (n : Int), r))
    else
      match c :: cs with
      | 't' :: 'r' :: 'u' :: 'e' :: r => some (.bool true, r)
      | 'f' :: 'a' :: 'l' :: 's' :: 'e' :: r => some (.bool false, r)
      | 'n' :: 'u' :: 'l' :: 'l' :: r => some (.null, r)
      | _ => none

/-- Parse the members of a JSON object, positioned at a key. -/
def parseJMembers : Nat → List (String × Json) → List Char → Option (Json × List Char)
  | 0, _, _ => none
  | fuel + 1, acc, cs =>
    match cs with
    | '"' :: cs₁ =>
      match parseJString [] cs₁ with
      | none => none
      | some (k, cs₂) =>
        match skipWs cs₂ with
        | ':' :: cs₃ =>
          match parseJValue fuel (skipWs cs₃) with
          | none => none
          | some (v, cs₄) =>
            match skipWs cs₄ with
            | ',' :: cs₅ =>
              match skipWs cs₅ with
              | [] => none
              | cs₆ => parseJMembers fuel (objInsert acc k v) cs₆
            | d :: cs₅ => if d == cbrace then some (.obj (objInsert acc k v), cs₅) else none
            | [] => none
        | _ => none
    | _ => none

/-- Parse the items of a JSON array, positioned at a value. -/
def parseJItems : Nat → List Json → List Char → Option (Json × List Char)
  | 0, _, _ => none
  | fuel + 1, acc, cs =>
    match parseJValue fuel cs with
    | none => none
    | some (v, cs₁) =>
      match skipWs cs₁ with
      | ',' :: cs₂ =>
        match skipWs cs₂ with
        | [] => none
        | cs₃ => parseJItems fuel (acc ++ [v]) cs₃
      | ']' :: cs₂ => some (.arr (acc ++ [v]), cs₂)
      | _ => none
end

/-- Model of `json.loads`: parse exactly one JSON document, allowing
surrounding whitespace; anything else after it is a decode error. -/
def jsonLoads (cs : List Char) : Option Json :=
  match parseJValue (cs.length + 1) (skipWs cs) with
  | some (v, rest) => if skipWs rest = [] then some v else none
  | none => none

/-! ## Python string-scanning helpers used by the extractor -/

/-- `s.find(c)` on a character list: index of the first occurrence, as
an option (`none` models Python's `-1`). -/
def pyFind (c : Char) : List Char → Option Nat
  | [] => none
  | d :: rest => if d = c then some 0 else (pyFind c rest).map (· + 1)

/-- `s.rfind(c)`: index of the last occurrence. -/
def pyRFind (c : Char) (cs : List Char) : Option Nat :=
  (pyFind c cs.reverse).map (fun i => cs.length - 1 - i)

/-- Python slicing `s[a:b]` for `0 ≤ a, b`. -/
def pySlice (cs : List Char) (a b : Nat) : List Char := (cs.drop a).take (b - a)

/-- Python `s.strip()` (ASCII whitespace; see `isPyWs`). -/
def pyStrip (s : String) : String := ⟨trimWs s.data⟩

/-! ## The Result Normalizer (`app.py` lines 631–741)

The normalization block of `analyze_authenticity` starts from an
all-default `analysis` dict and overwrites each field from the parsed
candidate. Its int-coercions of `claims_analysis[i].confidence` and
`sensational_tone.score`, and its slices of `bias_detection.indicators`,
`emotional_manipulation.tactics`/`examples` and
`sensational_tone.indicators`, are not wrapped in any local handler, so
a failure there is an exception that escapes the whole block (modelled
as `Except.error`); the orchestrator's outermost handler then turns it
into the error record. -/

/-- The `score_breakdown` default of the `analysis` template. -/
def defaultBreakdown : Json :=
  .obj [("factual_accuracy", .num 0), ("source_consistency", .num 0),
        ("detail_accuracy", .num 0), ("context_accuracy", .num 0)]

/-- The `bias_detection` default of the `analysis` template. -/
def defaultBias : Json :=
  .obj [("detected", .bool false), ("type", .str "none"), ("indicators", .arr [])]

/-- The `emotional_manipulation` default of the `analysis` template. -/
def defaultEmotional : Json :=
  .obj [("detected", .bool false), ("tactics", .arr []), ("examples", .arr [])]

/-- The `sensational_tone` default of the `analysis` template. -/
def defaultSensational : Json :=
  .obj [("detected", .bool false), ("score", .num 0), ("indicators", .arr [])]

/-- Lines 662–666: `int(result.get('authenticity_score', 0))` clamped to
[0,100]; the local `try` keeps the default 0 on `ValueError`/`TypeError`. -/
def extractScore (kvs : List (String × Json)) : Int :=
  match pyInt (dGet kvs "authenticity_score" (.num 0)) with
  | some n => clamp 0 100 n
  | none => 0

/-- Lines 669–676: a string-list field (`key_findings`/`differences`):
if the value is a list, keep `[str(x) for x in v[:3]]`, else the default
`[]`. -/
def extractStrings3 (kvs : List (String × Json)) (key : String) : List Json :=
  match dGet kvs key (.arr []) with
  | .arr xs => (xs.take 3).map (fun f => .str (pyStr f))
  | _ => []

/-- Lines 682–686: rebuild one `supporting_evidence` entry when it is a
dict; non-dict entries are skipped (`none`). -/
def coerceEvidence : Json → Option Json
  | .obj ikvs =>
    some (.obj [("quote", .str (pyStr (dGet ikvs "quote" (.str "")))),
                ("source", .str (pyStr (dGet ikvs "source" (.str "Unknown"))))])
  | _ => none

/-- Lines 679–686: `supporting_evidence`, first 3 entries, dicts only. -/
def extractEvidence (kvs : List (String × Json)) : List Json :=
  match dGet kvs "supporting_evidence" (.arr []) with
  | .arr xs => (xs.take 3).filterMap coerceEvidence
  | _ => []

/-- Lines 688–699: the four sub-scores, each `int`-coerced and clamped
to its own range; the whole dict display is inside one `try`, so a
single failed coercion keeps the default for all four. -/
def extractBreakdown (kvs : List (String × Json)) : Json :=
  match dGet kvs "score_breakdown" (.obj []) with
  | .obj bk =>
    match pyInt (dGet bk "factual_accuracy" (.num 0)),
          pyInt (dGet bk "source_consistency" (.num 0)),
          pyInt (dGet bk "detail_accuracy" (.num 0)),
          pyInt (dGet bk "context_accuracy" (.num 0)) with
    | some fa, some sc, some da, some ca =>
      .obj [("factual_accuracy", .num (clamp 0 40 fa)),
            ("source_consistency", .num (clamp 0 30 sc)),
            ("detail_accuracy", .num (clamp 0 20 da)),
            ("context_accuracy", .num (clamp 0 10 ca))]
    | _, _, _, _ => defaultBreakdown
  | _ => defaultBreakdown

/-- Lines 706–712: the rebuilt dict for one `claims_analysis` entry,
given the already-coerced confidence. -/
def claimEntry (ckvs : List (String × Json)) (n : Int) : Json :=
  .obj [("claim", .str (pyStr (dGet ckvs "claim" (.str "")))),
        ("classification", .str (pyStr (dGet ckvs "classification" (.str "unverified")))),
        ("explanation", .str (pyStr (dGet ckvs "explanation" (.str "")))),
        ("corrected_statement", .str (pyStr (dGet ckvs "corrected_statement" (.str "")))),
        ("confidence", .num (clamp 0 100 n))]

/-- Lines 704–712: walk the (already truncated) claims list in order,
skipping non-dict entries; `int(claim.get('confidence', 50))` has no
local handler, so a coercion failure aborts the whole normalization. -/
def coerceClaims : List Json → Except String (List Json)
  | [] => .ok []
  | .obj ckvs :: rest =>
    match pyInt (dGet ckvs "confidence" (.num 50)) with
    | some n =>
      match coerceClaims rest with
      | .error e => .error e
      | .ok tail => .ok (claimEntry ckvs n :: tail)
    | none => .error "int() failed on claim confidence"
  | _ :: rest => coerceClaims rest

/-- Lines 701–712: `claims_analysis`, first 10 entries, dicts only. -/
def extractClaims (kvs : List (String × Json)) : Except String (List Json) :=
  match dGet kvs "claims_analysis" (.arr []) with
  | .arr xs => coerceClaims (xs.take 10)
  | _ => .ok []

/-- An unguarded Python slice-then-iterate `v[:n]` of a dynamic value:
lists slice to their prefix; strings slice and iterate to 1-character
strings; anything else raises `TypeError`. -/
def pySliceIter (j : Json) (n : Nat) : Except String (List Json) :=
  match j with
  | .arr xs => .ok (xs.take n)
  | .str s => .ok ((s.data.take n).map (fun c => .str (String.singleton c)))
  | _ => .error "TypeError: value is not subscriptable"

/-- Lines 715–721: `bias_detection` (the `indicators` slice is
unguarded). -/
def extractBias (kvs : List (String × Json)) : Except String Json :=
  match dGet kvs "bias_detection" (.obj []) with
  | .obj bk =>
    match pySliceIter (dGet bk "indicators" (.arr [])) 5 with
    | .error e => .error e
    | .ok inds =>
      .ok (.obj [("detected", .bool (pyTruthy (dGet bk "detected" (.bool false)))),
                 ("type", .str (pyStr (dGet bk "type" (.str "none")))),
                 ("indicators", .arr (inds.map (fun i => .str (pyStr i))))])
  | _ => .ok defaultBias

/-- Lines 724–730: `emotional_manipulation` (both slices unguarded; the
`tactics` slice is evaluated before the `examples` one). -/
def extractEmotional (kvs : List (String × Json)) : Except String Json :=
  match dGet kvs "emotional_manipulation" (.obj []) with
  | .obj ek =>
    match pySliceIter (dGet ek "tactics" (.arr [])) 5 with
    | .error e => .error e
    | .ok tac =>
      match pySliceIter (dGet ek "examples" (.arr [])) 5 with
      | .error e => .error e
      | .ok exa =>
        .ok (.obj [("detected", .bool (pyTruthy (dGet ek "detected" (.bool false)))),
                   ("tactics", .arr (tac.map (fun t => .str (pyStr t)))),
                   ("examples", .arr (exa.map (fun e => .str (pyStr e))))])
  | _ => .ok defaultEmotional

/-- Lines 733–739: `sensational_tone` (the `score` coercion and the
`indicators` slice are unguarded; `score` is evaluated first). -/
def extractSensational (kvs : List (String × Json)) : Except String Json :=
  match dGet kvs "sensational_tone" (.obj []) with
  | .obj sk =>
    match pyInt (dGet sk "score" (.num 0)) with
    | some n =>
      match pySliceIter (dGet sk "indicators" (.arr [])) 5 with
      | .error e => .error e
      | .ok inds =>
        .ok (.obj [("detected", .bool (pyTruthy (dGet sk "detected" (.bool false)))),
                   ("score", .num (clamp 0 100 n)),
                   ("indicators", .arr (inds.map (fun i => .str (pyStr i))))])
    | none => .error "int() failed on sensational score"
  | _ => .ok defaultSensational

/-- Lines 631–741: the whole normalization block, from the parsed
candidate dict to the `analysis` record (or the escaping exception).
Of the nine field paragraphs only the last four can raise, in source
order `claims_analysis`, `bias_detection`, `emotional_manipulation`,
`sensational_tone`; the assignments keep the template's key order. -/
def normalize (kvs : List (String × Json)) : Except String Json :=
  match extractClaims kvs, extractBias kvs, extractEmotional kvs, extractSensational kvs with
  | .error e, _, _, _ => .error e
  | .ok _, .error e, _, _ => .error e
  | .ok _, .ok _, .error e, _ => .error e
  | .ok _, .ok _, .ok _, .error e => .error e
  | .ok claims, .ok bias, .ok emo, .ok sens =>
    .ok (.obj [("authenticity_score", .num (extractScore kvs)),
               ("key_findings", .arr (extractStrings3 kvs "key_findings")),
               ("differences", .arr (extractStrings3 kvs "differences")),
               ("supporting_evidence", .arr (extractEvidence kvs)),
               ("score_breakdown", extractBreakdown kvs),
               ("claims_analysis", .arr claims),
               ("bias_detection", bias),
               ("emotional_manipulation", emo),
               ("sensational_tone", sens)])

/-! ## The Verification Orchestrator (`app.py` lines 515–768) -/

/-- Lines 519–531: the record returned when no reference content is
available (note: it carries only five of the nine schema keys). -/
def noReferenceResult : Json :=
  .obj [("authenticity_score", .num 0),
        ("key_findings", .arr [.str "No verified sources available for comparison"]),
        ("differences", .arr [.str "Unable to verify due to lack of reference content"]),
        ("supporting_evidence",
          .arr [.obj [("quote", .str "No verified sources found"), ("source", .str "System")]]),
        ("score_breakdown", defaultBreakdown)]

/-- Lines 752–768: `create_error_response`. -/
def create_error_response (error_message : String) : Json :=
  .obj [("authenticity_score", .num 0),
        ("key_findings", .arr [.str error_message]),
        ("differences", .arr [.str "Analysis failed"]),
        ("supporting_evidence",
          .arr [.obj [("quote", .str "Error processing request"), ("source", .str "System")]]),
        ("score_breakdown", defaultBreakdown),
        ("claims_analysis", .arr []),
        ("bias_detection", defaultBias),
        ("emotional_manipulation", defaultEmotional),
        ("sensational_tone", defaultSensational)]

/-- Outcome of the external `ollama.chat` call (lines 605–620): it may
raise, return an envelope without `message`/`content` (or a falsy one),
or return a content string. -/
inductive ChatResult where
  | exn (msg : String)
  | malformed
  | content (s : String)

/-- Python `article['content']`: `KeyError` on a dict without the key,
`TypeError` on non-dict values. -/
def pySubscript (j : Json) (k : String) : Except String Json :=
  match j with
  | .obj kvs =>
    match jlookup kvs k with
    | some v => .ok v
    | none => .error ("KeyError: " ++ k)
  | _ => .error "TypeError: value is not subscriptable"

/-- Line 517: `[article['content'] for article in verified_articles if
article['content']]`. This runs before the `try` block, so its
exceptions propagate to the caller. -/
def getContents : List Json → Except String (List Json)
  | [] => .ok []
  | a :: rest =>
    match pySubscript a "content" with
    | .error e => .error e
    | .ok c =>
      match getContents rest with
      | .error e => .error e
      | .ok tail => .ok (if pyTruthy c then c :: tail else tail)

/-- `' '.join`: every item must be a string, else `TypeError`. -/
def strOfJsonList : List Json → Except String (List String)
  | [] => .ok []
  | .str s :: rest =>
    match strOfJsonList rest with
    | .error e => .error e
    | .ok tl => .ok (s :: tl)
  | _ :: _ => .error "TypeError: sequence item is not str"

/-- Lines 534–601: building the prompt f-string. The literal instruction
template is elided — it only feeds the external model and influences no
modelled output; behaviourally the prompt build matters because
`' '.join(verified_contents[:3])` runs before the `try` block and raises
`TypeError` when a kept content value is a truthy non-string. -/
def buildPrompt (original_news : String) (contents : List Json) : Except String String :=
  match strOfJsonList (contents.take 3) with
  | .error e => .error e
  | .ok parts => .ok (original_news ++ " " ++ String.intercalate " " parts)

/-- Lines 603–750: the `try` block of `analyze_authenticity`, from the
model call to the returned record. Its `except` handlers catch every
exception (`json.JSONDecodeError` at line 745, everything else at line
748), so the block always yields a record — hence a total function into
`Json`. Lines 617–618 (missing envelope fields) are the `malformed`
arm; lines 620–746 handle a content string. -/
def responsePhase (chat : ChatResult) : Json :=
  match chat with
  | .exn e => create_error_response ("Analysis failed: " ++ e)
  | .malformed => create_error_response "Invalid response from LLM"
  | .content s =>
    match pyFind obrace (pyStrip s).data, pyRFind cbrace (pyStrip s).data with
    | some start, some stop =>
      match jsonLoads (pySlice (pyStrip s).data start (stop + 1)) with
      | some (.obj kvs) =>
        match normalize kvs with
        | .ok a => a
        | .error e => create_error_response ("Analysis failed: " ++ e)
      | some _ => create_error_response "Analysis failed: AttributeError on non-dict JSON"
      | none => create_error_response "Failed to parse LLM response"
    | _, _ => create_error_response "Could not find JSON in LLM response"

/-- Lines 515–750: `analyze_authenticity`. The external model call is
the `chat` parameter; `Except.error` is an exception reaching the
caller (possible only from the content gathering and the prompt build,
which run before the `try` block). -/
def analyze_authenticity (original_news : String) (verified_articles : List Json)
    (chat : ChatResult) : Except String Json :=
  match getContents verified_articles with
  | .error e => .error e
  | .ok verified_contents =>
    if verified_contents.isEmpty then
      .ok noReferenceResult
    else
      match buildPrompt original_news verified_contents with
      | .error e => .error e
      | .ok _prompt => .ok (responsePhase chat)

/-! ## Schema predicates

Decidable checkers for the `VerificationResult` schema of §3 of the
specification: key presence and the declared numeric ranges, and the
full canonical shape used by the idempotence claim. -/

/-- `lo ≤ n ≤ hi`, as a boolean. -/
def inRange (lo hi n : Int) : Bool := decide (lo ≤ n) && decide (n ≤ hi)

/-- The value is a JSON string. -/
def isStrJ : Json → Bool
  | .str _ => true
  | _ => false

/-- The value is a JSON object. -/
def isObjJ : Json → Bool
  | .obj _ => true
  | _ => false

/-- An optional field holds a number inside the given range. -/
def optNumIn (lo hi : Int) : Option Json → Bool
  | some (.num n) => inRange lo hi n
  | _ => false

/-- A `claims_analysis` entry is an object whose `confidence` is a
number in [0,100]. -/
def claimConfOk (j : Json) : Bool :=
  match j with
  | .obj ck => optNumIn 0 100 (jlookup ck "confidence")
  | _ => false

/-- The `score_breakdown` field is an object whose four sub-scores are
numbers in their declared ranges. -/
def breakdownFieldOk : Option Json → Bool
  | some (.obj bk) =>
    optNumIn 0 40 (jlookup bk "factual_accuracy") &&
    optNumIn 0 30 (jlookup bk "source_consistency") &&
    optNumIn 0 20 (jlookup bk "detail_accuracy") &&
    optNumIn 0 10 (jlookup bk "context_accuracy")
  | _ => false

/-- The `claims_analysis` field is a list of objects whose confidences
are numbers in [0,100]. -/
def claimsFieldOk : Option Json → Bool
  | some (.arr cs) => cs.all claimConfOk
  | _ => false

/-- The `sensational_tone` field is an object whose score is a number
in [0,100]. -/
def sensFieldOk : Option Json → Bool
  | some (.obj sk) => optNumIn 0 100 (jlookup sk "score")
  | _ => false

/-- Full population per §3: all nine schema keys are present and every
numeric field (`authenticity_score`, the four `score_breakdown`
sub-scores, each claim confidence, the `sensational_tone` score) lies
within its declared range. -/
def wellFormedFull (a : Json) : Bool :=
  match a with
  | .obj kvs =>
    optNumIn 0 100 (jlookup kvs "authenticity_score") &&
    (jlookup kvs "key_findings").isSome &&
    (jlookup kvs "differences").isSome &&
    (jlookup kvs "supporting_evidence").isSome &&
    breakdownFieldOk (jlookup kvs "score_breakdown") &&
    claimsFieldOk (jlookup kvs "claims_analysis") &&
    (jlookup kvs "bias_detection").isSome &&
    (jlookup kvs "emotional_manipulation").isSome &&
    sensFieldOk (jlookup kvs "sensational_tone")
  | _ => false

/-- A canonical `supporting_evidence` entry. -/
def canonEvidence : Json → Bool
  | .obj [("quote", .str _), ("source", .str _)] => true
  | _ => false

/-- A canonical `claims_analysis` entry. -/
def canonClaim : Json → Bool
  | .obj [("claim", .str _), ("classification", .str _), ("explanation", .str _),
          ("corrected_statement", .str _), ("confidence", .num n)] => inRange 0 100 n
  | _ => false

/-- A canonical `score_breakdown`. -/
def canonBreakdown : Json → Bool
  | .obj [("factual_accuracy", .num fa), ("source_consistency", .num sc),
          ("detail_accuracy", .num da), ("context_accuracy", .num ca)] =>
    inRange 0 40 fa && (inRange 0 30 sc && (inRange 0 20 da && inRange 0 10 ca))
  | _ => false

/-- A canonical `bias_detection`. -/
def canonBias : Json → Bool
  | .obj [("detected", .bool _), ("type", .str _), ("indicators", .arr inds)] =>
    decide (inds.length ≤ 5) && inds.all isStrJ
  | _ => false

/-- A canonical `emotional_manipulation`. -/
def canonEmotional : Json → Bool
  | .obj [("detected", .bool _), ("tactics", .arr ts), ("examples", .arr es)] =>
    decide (ts.length ≤ 5) && (ts.all isStrJ && (decide (es.length ≤ 5) && es.all isStrJ))
  | _ => false

/-- A canonical `sensational_tone`. -/
def canonSensational : Json → Bool
  | .obj [("detected", .bool _), ("score", .num n), ("indicators", .arr inds)] =>
    inRange 0 100 n && (decide (inds.length ≤ 5) && inds.all isStrJ)
  | _ => false

/-- A fully canonical `VerificationResult`, viewed as a parsed
candidate dict: exactly the nine schema keys, in the order the
normalizer itself emits (a Python dict produced by the normalizer has
this insertion order), with every field of its declared shape, every
numeric in range and every list within its length bound. -/
def canonical : List (String × Json) → Bool
  | [("authenticity_score", .num a), ("key_findings", .arr fs), ("differences", .arr ds),
     ("supporting_evidence", .arr es), ("score_breakdown", sb), ("claims_analysis", .arr cs),
     ("bias_detection", bd), ("emotional_manipulation", em), ("sensational_tone", st)] =>
    inRange 0 100 a &&
    (decide (fs.length ≤ 3) && (fs.all isStrJ &&
    (decide (ds.length ≤ 3) && (ds.all isStrJ &&
    (decide (es.length ≤ 3) && (es.all canonEvidence &&
    (canonBreakdown sb &&
    (decide (cs.length ≤ 10) && (cs.all canonClaim &&
    (canonBias bd && (canonEmotional em && canonSensational st)))))))))))
  | _ => false

/-- The record the normalizer produces for a candidate that sets only
`score_breakdown` (all other fields keep their defaults). -/
def blankRecordWith (sb : Json) : Json :=
  .obj [("authenticity_score", .num 0),
        ("key_findings", .arr []),
        ("differences", .arr []),
        ("supporting_evidence", .arr []),
        ("score_breakdown", sb),
        ("claims_analysis", .arr []),
        ("bias_detection", defaultBias),
        ("emotional_manipulation", defaultEmotional),
        ("sensational_tone", defaultSensational)]

/-- A reference article with non-empty string content, used as the
concrete evidence list in single-response scenarios. -/
def refArticle : Json := .obj [("content", .str "reference text")]

/-! ## Basic lemmas -/

theorem clamp_lb (lo hi n : Int) : lo ≤ clamp lo hi n := le_max_left _ _

theorem clamp_ub (lo hi n : Int) (h : lo ≤ hi) : clamp lo hi n ≤ hi :=
  max_le h (min_le_left _ _)

theorem clamp_eq_self (lo hi n : Int) (h₁ : lo ≤ n) (h₂ : n ≤ hi) : clamp lo hi n = n := by
  unfold clamp
  rw [min_eq_right h₂, max_eq_right h₁]

theorem inRange_clamp (lo hi n : Int) (h : lo ≤ hi) : inRange lo hi (clamp lo hi n) = true := by
  simp only [inRange, Bool.and_eq_true, decide_eq_true_eq]
  exact ⟨clamp_lb lo hi n, clamp_ub lo hi n h⟩

theorem mem_of_mem_dropWhile {p : Char → Bool} {x : Char} :
    ∀ {l : List Char}, x ∈ l.dropWhile p → x ∈ l := by
  intro l
  induction l with
  | nil => simp [List.dropWhile]
  | cons c cs ih =>
    intro h
    rw [List.dropWhile] at h
    by_cases hp : p c
    · simp only [hp] at h
      exact List.mem_cons_of_mem _ (ih h)
    · simp only [Bool.not_eq_true] at hp
      simp only [hp] at h
      exact h

theorem mem_of_mem_trimWs {x : Char} {cs : List Char} (h : x ∈ trimWs cs) : x ∈ cs := by
  unfold trimWs at h
  rw [List.mem_reverse] at h
  have h₁ := mem_of_mem_dropWhile h
  rw [List.mem_reverse] at h₁
  exact mem_of_mem_dropWhile h₁

theorem pyFind_eq_none {c : Char} : ∀ {l : List Char}, c ∉ l → pyFind c l = none := by
  intro l
  induction l with
  | nil => intro; rfl
  | cons d rest ih =>
    intro h
    rw [List.mem_cons, not_or] at h
    unfold pyFind
    rw [if_neg (fun hdc => h.1 hdc.symm), ih h.2]
    rfl

/-! ## Range lemmas about the normalizer -/

theorem extractScore_range (kvs : List (String × Json)) :
    inRange 0 100 (extractScore kvs) = true := by
  unfold extractScore
  cases pyInt (dGet kvs "authenticity_score" (.num 0)) with
  | none => rfl
  | some n => exact inRange_clamp 0 100 n (by norm_num)

theorem extractBreakdown_ok (kvs : List (String × Json)) :
    breakdownFieldOk (some (extractBreakdown kvs)) = true := by
  unfold extractBreakdown
  split
  · split
    · change (inRange 0 40 (clamp 0 40 _) && inRange 0 30 (clamp 0 30 _) &&
        inRange 0 20 (clamp 0 20 _) && inRange 0 10 (clamp 0 10 _)) = true
      rw [inRange_clamp _ _ _ (by norm_num), inRange_clamp _ _ _ (by norm_num),
        inRange_clamp _ _ _ (by norm_num), inRange_clamp _ _ _ (by norm_num)]
      rfl
    all_goals rfl
  all_goals rfl

theorem claimConfOk_claimEntry (ckvs : List (String × Json)) (n : Int) :
    claimConfOk (claimEntry ckvs n) = true := by
  show optNumIn 0 100 (some (.num (clamp 0 100 n))) = true
  exact inRange_clamp 0 100 n (by norm_num)

theorem coerceClaims_all :
    ∀ {l out : List Json}, coerceClaims l = .ok out → out.all claimConfOk = true := by
  intro l
  induction l with
  | nil =>
    intro out h
    cases h
    rfl
  | cons c rest ih =>
    intro out h
    cases c with
    | obj ckvs =>
      unfold coerceClaims at h
      split at h
      · split at h
        · exact Except.noConfusion h
        · rename_i tail heq
          cases h
          rw [List.all_cons, claimConfOk_claimEntry, ih heq]
          rfl
      · exact Except.noConfusion h
    | null => exact ih h
    | bool b => exact ih h
    | num n => exact ih h
    | str s => exact ih h
    | arr xs => exact ih h

theorem extractClaims_all (kvs : List (String × Json)) {cs : List Json}
    (h : extractClaims kvs = .ok cs) : cs.all claimConfOk = true := by
  unfold extractClaims at h
  split at h
  · exact coerceClaims_all h
  · cases h; rfl

theorem extractSensational_ok (kvs : List (String × Json)) {s : Json}
    (h : extractSensational kvs = .ok s) : sensFieldOk (some s) = true := by
  unfold extractSensational at h
  split at h
  · split at h
    · split at h
      · exact Except.noConfusion h
      · cases h
        change inRange 0 100 (clamp 0 100 _) = true
        exact inRange_clamp 0 100 _ (by norm_num)
    · exact Except.noConfusion h
  · cases h
    rfl

theorem normalize_wf {kvs : List (String × Json)} {a : Json}
    (h : normalize kvs = .ok a) : wellFormedFull a = true := by
  unfold normalize at h
  split at h
  · exact Except.noConfusion h
  · exact Except.noConfusion h
  · exact Except.noConfusion h
  · exact Except.noConfusion h
  · rename_i claims bias emo sens hc hb he hs
    cases h
    show (optNumIn 0 100 (some (.num (extractScore kvs))) &&
      (some (Json.arr (extractStrings3 kvs "key_findings"))).isSome &&
      (some (Json.arr (extractStrings3 kvs "differences"))).isSome &&
      (some (Json.arr (extractEvidence kvs))).isSome &&
      breakdownFieldOk (some (extractBreakdown kvs)) &&
      claimsFieldOk (some (.arr claims)) &&
      (some bias).isSome && (some emo).isSome &&
      sensFieldOk (some sens)) = true
    rw [show optNumIn 0 100 (some (.num (extractScore kvs))) = inRange 0 100 (extractScore kvs) from rfl]
    rw [extractScore_range kvs, extractBreakdown_ok kvs]
    rw [show claimsFieldOk (some (.arr claims)) = claims.all claimConfOk from rfl]
    rw [extractClaims_all kvs hc, extractSensational_ok kvs hs]
    rfl

theorem create_error_response_wf (msg : String) :
    wellFormedFull (create_error_response msg) = true := rfl

theorem responsePhase_wf (chat : ChatResult) : wellFormedFull (responsePhase chat) = true := by
  unfold responsePhase
  split
  · exact create_error_response_wf _
  · exact create_error_response_wf _
  · split
    · split
      · split
        · rename_i ha
          exact normalize_wf ha
        · exact create_error_response_wf _
      all_goals exact create_error_response_wf _
    all_goals exact create_error_response_wf _

/-- A reference article whose `content` access cannot raise and whose
value joins into the prompt without error: a dict carrying a string
under `content`. -/
def articleContentStr : Json → Bool
  | .obj kvs =>
    match jlookup kvs "content" with
    | some (.str _) => true
    | _ => false
  | _ => false

theorem allTake (p : Json → Bool) :
    ∀ (n : Nat) (l : List Json), l.all p = true → (l.take n).all p = true := by
  intro n l
  induction l generalizing n with
  | nil => intro h; cases n <;> exact h
  | cons x xs ih =>
    intro h
    rw [List.all_cons, Bool.and_eq_true] at h
    cases n with
    | zero => rfl
    | succ m =>
      rw [List.take_succ_cons, List.all_cons, Bool.and_eq_true]
      exact ⟨h.1, ih m h.2⟩

theorem getContents_strs :
    ∀ {arts : List Json}, arts.all articleContentStr = true →
      ∃ cs, getContents arts = .ok cs ∧ cs.all isStrJ = true := by
  intro arts
  induction arts with
  | nil => intro _; exact ⟨[], rfl, rfl⟩
  | cons a rest ih =>
    intro h
    rw [List.all_cons, Bool.and_eq_true] at h
    obtain ⟨cs, hcs, hstr⟩ := ih h.2
    have h₁ := h.1
    unfold articleContentStr at h₁
    split at h₁
    · split at h₁
      · rename_i kvs s heq
        refine ⟨if pyTruthy (.str s) then .str s :: cs else cs, ?_, ?_⟩
        · unfold getContents pySubscript
          simp only [heq, hcs]
        · cases hps : pyTruthy (Json.str s) with
          | true => simp [hps, isStrJ, hstr]
          | false => simp [hps, hstr]
      · exact absurd h₁ (by simp)
    · exact absurd h₁ (by simp)

theorem strOfJsonList_ok :
    ∀ {l : List Json}, l.all isStrJ = true → ∃ parts, strOfJsonList l = .ok parts := by
  intro l
  induction l with
  | nil => intro _; exact ⟨[], rfl⟩
  | cons x xs ih =>
    intro h
    rw [List.all_cons, Bool.and_eq_true] at h
    obtain ⟨parts, hp⟩ := ih h.2
    cases x with
    | str s =>
      refine ⟨s :: parts, ?_⟩
      unfold strOfJsonList
      rw [hp]
    | null => exact absurd h.1 (by simp [isStrJ])
    | bool b => exact absurd h.1 (by simp [isStrJ])
    | num n => exact absurd h.1 (by simp [isStrJ])
    | arr xs₁ => exact absurd h.1 (by simp [isStrJ])
    | obj kvs => exact absurd h.1 (by simp [isStrJ])

theorem buildPrompt_ok (news : String) {cs : List Json} (h : cs.all isStrJ = true) :
    ∃ p, buildPrompt news cs = .ok p := by
  obtain ⟨parts, hp⟩ := strOfJsonList_ok (allTake isStrJ 3 cs h)
  refine ⟨news ++ " " ++ String.intercalate " " parts, ?_⟩
  unfold buildPrompt
  rw [hp]

/-! ## Claim theorems -/

/-- C1, counterexample: the claim asserts that for every input —
including an empty reference list — the returned record carries every
key of the schema. At the empty reference list the call returns the
no-reference short-circuit record, which lacks the `claims_analysis`,
`bias_detection`, `emotional_manipulation` and `sensational_tone` keys
(`app.py` lines 519–531 build only five keys). -/
theorem shortCircuit_missing_keys :
    analyze_authenticity "some news" [] (ChatResult.content "") = .ok noReferenceResult ∧
    jGet noReferenceResult "authenticity_score" = some (.num 0) ∧
    jGet noReferenceResult "claims_analysis" = none ∧
    jGet noReferenceResult "bias_detection" = none ∧
    jGet noReferenceResult "emotional_manipulation" = none ∧
    jGet noReferenceResult "sensational_tone" = none :=
  ⟨rfl, rfl, rfl, rfl, rfl, rfl⟩

/-- C1, amended: whenever `analyze_authenticity` returns a record, that
record either is the no-reference short-circuit record (five keys, all
numerics zero) or is fully populated: all nine schema keys present and
every numeric field within its declared range. -/
theorem analyze_shape_amended (news : String) (arts : List Json) (chat : ChatResult)
    (a : Json) (h : analyze_authenticity news arts chat = .ok a) :
    a = noReferenceResult ∨ wellFormedFull a = true := by
  unfold analyze_authenticity at h
  split at h
  · exact Except.noConfusion h
  · split at h
    · cases h
      exact Or.inl rfl
    · split at h
      · exact Except.noConfusion h
      · cases h
        exact Or.inr (responsePhase_wf chat)

/-- C1, witness for the amended theorem, at a model output with no JSON
object: the returned error record is fully populated. -/
theorem analyze_shape_amended_witness :
    create_error_response "Could not find JSON in LLM response" = noReferenceResult ∨
    wellFormedFull (create_error_response "Could not find JSON in LLM response") = true :=
  analyze_shape_amended "n" [refArticle] (ChatResult.content "hello")
    (create_error_response "Could not find JSON in LLM response") rfl

/-- C2, counterexample: the claim asserts the call never raises for any
reference list, including dicts missing keys. The content-gathering
comprehension (`app.py` line 517) runs before the `try` block, so an
article without a `content` key raises `KeyError` to the caller. -/
theorem analyze_raises_on_missing_content :
    analyze_authenticity "news" [Json.obj []] (ChatResult.content "") =
      .error "KeyError: content" := rfl

/-- C2, amended: the call returns a record rather than raising provided
every reference article is a dict whose `content` value is a string
(for other lists, e.g. a dict missing the `content` key or a truthy
non-string content, line 517 or the prompt join can raise). -/
theorem analyze_total_amended (news : String) (arts : List Json) (chat : ChatResult)
    (h : arts.all articleContentStr = true) :
    ∃ a, analyze_authenticity news arts chat = .ok a := by
  obtain ⟨cs, hcs, hstr⟩ := getContents_strs h
  unfold analyze_authenticity
  rw [hcs]
  cases he : cs.isEmpty with
  | true => exact ⟨noReferenceResult, by simp [he]⟩
  | false =>
    obtain ⟨p, hp⟩ := buildPrompt_ok news hstr
    exact ⟨responsePhase chat, by simp [he, hp]⟩

/-- C2, witness for the amended theorem. -/
theorem analyze_total_amended_witness :
    ∃ a, analyze_authenticity "news" [refArticle] (ChatResult.content "hi") = .ok a :=
  analyze_total_amended "news" [refArticle] (ChatResult.content "hi") rfl

/-- C3: when the reference list yields no usable content (it is empty,
or every article's `content` is falsy), the result is the fixed
no-reference record — for every model outcome `chat`, so the model is
never consulted — with `authenticity_score` 0 and exactly one
explanatory `key_findings` entry. -/
theorem noReference_shortCircuit (news : String) (arts : List Json) (chat : ChatResult)
    (h : getContents arts = .ok []) :
    analyze_authenticity news arts chat = .ok noReferenceResult ∧
    jGet noReferenceResult "authenticity_score" = some (.num 0) ∧
    jGet noReferenceResult "key_findings" =
      some (.arr [.str "No verified sources available for comparison"]) := by
  refine ⟨?_, rfl, rfl⟩
  unfold analyze_authenticity
  rw [h]
  rfl

/-- C3, witness: the empty reference list. -/
theorem noReference_shortCircuit_witness :
    analyze_authenticity "n" [] (ChatResult.content "text") = .ok noReferenceResult ∧
    jGet noReferenceResult "authenticity_score" = some (.num 0) ∧
    jGet noReferenceResult "key_findings" =
      some (.arr [.str "No verified sources available for comparison"]) :=
  noReference_shortCircuit "n" [] (ChatResult.content "text") rfl

/-- A candidate whose claims list has one claim with the wrong-typed
confidence `"high"` and one well-typed claim. -/
def kvsHigh : List (String × Json) :=
  [("claims_analysis", .arr
    [.obj [("claim", .str "c1"), ("confidence", .str "high")],
     .obj [("claim", .str "c2"), ("confidence", .num 80)]])]

/-- The model output whose embedded JSON decodes to `kvsHigh`. -/
def highContent : String :=
  obs ++ "\"claims_analysis\": [" ++ obs ++ "\"claim\": \"c1\", \"confidence\": \"high\"" ++ cbs
    ++ ", " ++ obs ++ "\"claim\": \"c2\", \"confidence\": 80" ++ cbs ++ "]" ++ cbs

/-- Like `kvsHigh` but the first claim simply omits `confidence`. -/
def kvsMissingConf : List (String × Json) :=
  [("claims_analysis", .arr
    [.obj [("claim", .str "c1")],
     .obj [("claim", .str "c2"), ("confidence", .num 80)]])]

/-- The record the normalizer produces for a candidate that sets only
`claims_analysis` (everything else keeps its default). -/
def claimsRecord (cs : List Json) : Json :=
  .obj [("authenticity_score", .num 0),
        ("key_findings", .arr []),
        ("differences", .arr []),
        ("supporting_evidence", .arr []),
        ("score_breakdown", defaultBreakdown),
        ("claims_analysis", .arr cs),
        ("bias_detection", defaultBias),
        ("emotional_manipulation", defaultEmotional),
        ("sensational_tone", defaultSensational)]

/-- C4, counterexample: the claim asserts a string confidence `"high"`
is defaulted to 50 while the rest of the claims list is kept. In the
code `int(claim.get('confidence', 50))` (line 711) has no local
handler, so the `ValueError` escapes the whole normalization block; the
outer handler replaces the entire result with the error record, whose
`claims_analysis` is empty — the well-typed second claim is lost too. -/
theorem claims_confidence_string_fails :
    normalize kvsHigh = .error "int() failed on claim confidence" ∧
    analyze_authenticity "n" [refArticle] (ChatResult.content highContent) =
      .ok (create_error_response "Analysis failed: int() failed on claim confidence") ∧
    jGet (create_error_response "Analysis failed: int() failed on claim confidence")
      "claims_analysis" = some (.arr []) ∧
    jGet (create_error_response "Analysis failed: int() failed on claim confidence")
      "authenticity_score" = some (.num 0) :=
  ⟨rfl, rfl, rfl, rfl⟩

/-- C4, amended: the per-claim default of 50 applies when `confidence`
is absent (the rest of the claims list is kept, with its own coerced
confidence); a claim whose confidence is the non-numeric string
`"high"` instead aborts normalization and the orchestrator returns the
error record, discarding the entire list. -/
theorem claims_confidence_amended :
    normalize kvsMissingConf = .ok (claimsRecord
      [.obj [("claim", .str "c1"), ("classification", .str "unverified"),
             ("explanation", .str ""), ("corrected_statement", .str ""),
             ("confidence", .num 50)],
       .obj [("claim", .str "c2"), ("classification", .str "unverified"),
             ("explanation", .str ""), ("corrected_statement", .str ""),
             ("confidence", .num 80)]]) ∧
    normalize kvsHigh = .error "int() failed on claim confidence" :=
  ⟨rfl, rfl⟩

/-- The model output of the C5 scenario: prose, then a JSON object with
an out-of-range score and four findings. -/
def c5content : String :=
  "Sure! " ++ obs ++ "\"authenticity_score\": 999, \"key_findings\": [\"a\",\"b\",\"c\",\"d\"]" ++ cbs

/-- The substring of `c5content` from the first brace to the last. -/
def c5json : String :=
  obs ++ "\"authenticity_score\": 999, \"key_findings\": [\"a\",\"b\",\"c\",\"d\"]" ++ cbs

/-- The normalized record for the C5 scenario. -/
def c5Result : Json :=
  .obj [("authenticity_score", .num 100),
        ("key_findings", .arr [.str "a", .str "b", .str "c"]),
        ("differences", .arr []),
        ("supporting_evidence", .arr []),
        ("score_breakdown", defaultBreakdown),
        ("claims_analysis", .arr []),
        ("bias_detection", defaultBias),
        ("emotional_manipulation", defaultEmotional),
        ("sensational_tone", defaultSensational)]

/-- C5: on the "Sure! ..." model output, the extractor takes the
substring from the first brace (index 6) to the last (index 67)
inclusive and decodes it as JSON; the normalizer clamps the score 999
to 100 and truncates the four findings to the first three. -/
theorem extractor_clamps_and_truncates :
    pyFind obrace (pyStrip c5content).data = some 6 ∧
    pyRFind cbrace (pyStrip c5content).data = some 67 ∧
    pySlice (pyStrip c5content).data 6 (67 + 1) = c5json.data ∧
    jsonLoads c5json.data = some (.obj
      [("authenticity_score", .num 999),
       ("key_findings", .arr [.str "a", .str "b", .str "c", .str "d"])]) ∧
    analyze_authenticity "n" [refArticle] (ChatResult.content c5content) = .ok c5Result ∧
    jGet c5Result "authenticity_score" = some (.num 100) ∧
    jGet c5Result "key_findings" = some (.arr [.str "a", .str "b", .str "c"]) :=
  ⟨rfl, rfl, rfl, rfl, rfl, rfl, rfl⟩

/-- C6: each of the four `score_breakdown` sub-scores is clamped to its
own range (factual [0,40], source [0,30], detail [0,20], context
[0,10]); concretely, a candidate with `factual_accuracy = -5`
normalizes to 0 and one with `factual_accuracy = 1000` normalizes
to 40. -/
theorem breakdown_clamped_per_range :
    (∀ fa sc da ca : Int,
      extractBreakdown [("score_breakdown", .obj
        [("factual_accuracy", .num fa), ("source_consistency", .num sc),
         ("detail_accuracy", .num da), ("context_accuracy", .num ca)])] =
      .obj [("factual_accuracy", .num (clamp 0 40 fa)),
            ("source_consistency", .num (clamp 0 30 sc)),
            ("detail_accuracy", .num (clamp 0 20 da)),
            ("context_accuracy", .num (clamp 0 10 ca))]) ∧
    normalize [("score_breakdown", .obj [("factual_accuracy", .num (-5))])] =
      .ok (blankRecordWith defaultBreakdown) ∧
    normalize [("score_breakdown", .obj [("factual_accuracy", .num 1000)])] =
      .ok (blankRecordWith (.obj
        [("factual_accuracy", .num 40), ("source_consistency", .num 0),
         ("detail_accuracy", .num 0), ("context_accuracy", .num 0)])) :=
  ⟨fun _ _ _ _ => rfl, rfl, rfl⟩

/-- C7, counterexample to the quoted reason: for an output with no
brace the code's failure reason is the string
`"Could not find JSON in LLM response"` (line 743), not the claim's
`"could not find JSON in model response"`; the reason lands in
`key_findings`, while `differences` carries the generic
`"Analysis failed"`. -/
theorem no_brace_reason_counterexample :
    analyze_authenticity "n" [refArticle] (ChatResult.content "There is no JSON here.") =
      .ok (create_error_response "Could not find JSON in LLM response") ∧
    jGet (create_error_response "Could not find JSON in LLM response") "key_findings" =
      some (.arr [.str "Could not find JSON in LLM response"]) ∧
    "Could not find JSON in LLM response" ≠ "could not find JSON in model response" :=
  ⟨rfl, rfl, by decide⟩

/-- C7, amended: for every model output containing no opening brace,
the call returns (does not raise) the error record with reason
`"Could not find JSON in LLM response"`, `authenticity_score` 0 and the
non-empty `differences` entry `"Analysis failed"`. -/
theorem no_brace_error_amended (s : String) (hs : obrace ∉ s.data) :
    analyze_authenticity "n" [refArticle] (ChatResult.content s) =
      .ok (create_error_response "Could not find JSON in LLM response") ∧
    jGet (create_error_response "Could not find JSON in LLM response")
      "authenticity_score" = some (.num 0) ∧
    jGet (create_error_response "Could not find JSON in LLM response")
      "differences" = some (.arr [.str "Analysis failed"]) := by
  refine ⟨?_, rfl, rfl⟩
  have h₁ : pyFind obrace (pyStrip s).data = none :=
    pyFind_eq_none (fun hm => hs (mem_of_mem_trimWs hm))
  have h₂ : responsePhase (ChatResult.content s) =
      create_error_response "Could not find JSON in LLM response" := by
    unfold responsePhase
    split
    · rename_i e heq
      exact ChatResult.noConfusion heq
    · rename_i heq
      exact ChatResult.noConfusion heq
    · rename_i s₁ heq
      injection heq with hss
      subst hss
      rw [h₁]
  rw [show analyze_authenticity "n" [refArticle] (ChatResult.content s) =
    .ok (responsePhase (ChatResult.content s)) from rfl, h₂]

/-- C7, witness for the amended theorem. -/
theorem no_brace_error_amended_witness :
    analyze_authenticity "n" [refArticle] (ChatResult.content "plain prose, no json") =
      .ok (create_error_response "Could not find JSON in LLM response") ∧
    jGet (create_error_response "Could not find JSON in LLM response")
      "authenticity_score" = some (.num 0) ∧
    jGet (create_error_response "Could not find JSON in LLM response")
      "differences" = some (.arr [.str "Analysis failed"]) :=
  no_brace_error_amended "plain prose, no json" (by decide)

/-- If the candidate's `score_breakdown` is a dict whose
`source_consistency` fails int-coercion, the whole breakdown keeps its
default (the `try` at lines 691–699 wraps all four coercions). -/
theorem extractBreakdown_default {kvs bk : List (String × Json)}
    (hget : dGet kvs "score_breakdown" (.obj []) = .obj bk)
    (h : pyInt (dGet bk "source_consistency" (.num 0)) = none) :
    extractBreakdown kvs = defaultBreakdown := by
  unfold extractBreakdown
  rw [hget]
  split
  · rename_i bk₁ heq
    injection heq with hbk
    subst hbk
    cases hfa : pyInt (dGet bk "factual_accuracy" (Json.num 0)) with
    | none => rfl
    | some fa => rw [h]
  · rename_i hcontra
    exact (hcontra bk rfl).elim

/-- C9: the `score_breakdown` defaulting is atomic. If any one
sub-score fails integer coercion (here `source_consistency`), the
normalizer keeps the default 0 for all four sub-scores, including the
ones that would have coerced successfully. -/
theorem breakdown_atomic_default (bk : List (String × Json))
    (h : pyInt (dGet bk "source_consistency" (.num 0)) = none) :
    extractBreakdown [("score_breakdown", .obj bk)] = defaultBreakdown ∧
    normalize [("score_breakdown", .obj bk)] = .ok (blankRecordWith defaultBreakdown) := by
  have hb : extractBreakdown [("score_breakdown", Json.obj bk)] = defaultBreakdown :=
    extractBreakdown_default rfl h
  refine ⟨hb, ?_⟩
  have hn : normalize [("score_breakdown", Json.obj bk)] =
      .ok (blankRecordWith (extractBreakdown [("score_breakdown", Json.obj bk)])) := rfl
  rw [hb] at hn
  exact hn

/-- C9, witness: `source_consistency` is the string `"abc"` while the
other three sub-scores are valid in-range numbers; all four default. -/
theorem breakdown_atomic_default_witness :
    extractBreakdown [("score_breakdown", .obj
      [("factual_accuracy", .num 10), ("source_consistency", .str "abc"),
       ("detail_accuracy", .num 5), ("context_accuracy", .num 2)])] = defaultBreakdown ∧
    normalize [("score_breakdown", .obj
      [("factual_accuracy", .num 10), ("source_consistency", .str "abc"),
       ("detail_accuracy", .num 5), ("context_accuracy", .num 2)])] =
      .ok (blankRecordWith defaultBreakdown) :=
  breakdown_atomic_default _ rfl

/-- A `claims_analysis` entry the loop can process without raising:
non-dicts are skipped outright, dicts need a coercible confidence. -/
def claimCoercible : Json → Bool
  | .obj ck => (pyInt (dGet ck "confidence" (.num 50))).isSome
  | _ => true

/-- The rebuilt entry for a dict claim (`.null` for non-dicts, which
never appear in the filtered list). -/
def coerceClaimTotal : Json → Json
  | .obj ck => claimEntry ck ((pyInt (dGet ck "confidence" (.num 50))).getD 0)
  | _ => .null

/-- The rebuilt entry for a dict evidence item. -/
def coerceEvidenceTotal (j : Json) : Json := (coerceEvidence j).getD .null

theorem filterMap_evidence : ∀ l : List Json,
    l.filterMap coerceEvidence = (l.filter isObjJ).map coerceEvidenceTotal := by
  intro l
  induction l with
  | nil => rfl
  | cons x xs ih => cases x <;> (rw [List.filterMap_cons, List.filter_cons, ih]; rfl)

theorem coerceClaims_filter : ∀ (l : List Json), l.all claimCoercible = true →
    coerceClaims l = .ok ((l.filter isObjJ).map coerceClaimTotal) := by
  intro l
  induction l with
  | nil => intro _; rfl
  | cons x xs ih =>
    intro h
    rw [List.all_cons, Bool.and_eq_true] at h
    cases x with
    | obj ck =>
      have h₁ : (pyInt (dGet ck "confidence" (Json.num 50))).isSome = true := h.1
      cases hpi : pyInt (dGet ck "confidence" (Json.num 50)) with
      | none =>
        rw [hpi] at h₁
        exact Bool.noConfusion h₁
      | some n =>
        unfold coerceClaims
        rw [show (Json.obj ck :: xs).filter isObjJ = Json.obj ck :: xs.filter isObjJ from rfl,
          List.map_cons,
          show coerceClaimTotal (Json.obj ck) =
            claimEntry ck ((pyInt (dGet ck "confidence" (Json.num 50))).getD 0) from rfl,
          hpi, ih h.2]
        rfl
    | null => exact ih h.2
    | bool b => exact ih h.2
    | num n => exact ih h.2
    | str s => exact ih h.2
    | arr xs₁ => exact ih h.2

/-- C10: in the normalizer, entries of `supporting_evidence` and
`claims_analysis` that are not dicts are silently skipped, so the
output lists keep, in order, exactly the dict entries among the first 3
(resp. 10) input positions — possibly fewer than `min 3 (length)`
(resp. `min 10 (length)`) entries, as the concrete run with a 3-element
evidence list producing a single entry shows. -/
theorem nonDict_entries_skipped :
    (∀ xs : List Json, extractEvidence [("supporting_evidence", .arr xs)] =
      ((xs.take 3).filter isObjJ).map coerceEvidenceTotal) ∧
    (∀ xs : List Json, (xs.take 10).all claimCoercible = true →
      extractClaims [("claims_analysis", .arr xs)] =
        .ok (((xs.take 10).filter isObjJ).map coerceClaimTotal)) ∧
    extractEvidence [("supporting_evidence",
        .arr [.str "x", .obj [("quote", .str "q")], .num 3])] =
      [.obj [("quote", .str "q"), ("source", .str "Unknown")]] := by
  refine ⟨?_, ?_, rfl⟩
  · intro xs
    show (xs.take 3).filterMap coerceEvidence = _
    exact filterMap_evidence _
  · intro xs h
    show coerceClaims (xs.take 10) = _
    exact coerceClaims_filter _ h

/-- C10, witness: a claims list whose first entry is a non-dict and
whose second is a dict; the output keeps only the coerced dict. -/
theorem nonDict_entries_skipped_witness :
    extractClaims [("claims_analysis",
        Json.arr [Json.str "x", Json.obj [("confidence", Json.num 30)]])] =
      .ok [claimEntry [("confidence", Json.num 30)] 30] := by
  have h := nonDict_entries_skipped.2.1
    [Json.str "x", Json.obj [("confidence", Json.num 30)]] rfl
  exact h.trans rfl

/-! ## Idempotence of the normalizer on canonical records -/

theorem mapPyStr_id : ∀ {l : List Json}, l.all isStrJ = true →
    l.map (fun f => Json.str (pyStr f)) = l := by
  intro l
  induction l with
  | nil => intro _; rfl
  | cons x xs ih =>
    intro h
    rw [List.all_cons, Bool.and_eq_true] at h
    cases x with
    | str s =>
      rw [List.map_cons, ih h.2]
      rfl
    | null => exact Bool.noConfusion h.1
    | bool b => exact Bool.noConfusion h.1
    | num n => exact Bool.noConfusion h.1
    | arr xs₁ => exact Bool.noConfusion h.1
    | obj kvs => exact Bool.noConfusion h.1

theorem evidence_id : ∀ {l : List Json}, l.all canonEvidence = true →
    l.filterMap coerceEvidence = l := by
  intro l
  induction l with
  | nil => intro _; rfl
  | cons e rest ih =>
    intro h
    rw [List.all_cons, Bool.and_eq_true] at h
    have h₁ := h.1
    unfold canonEvidence at h₁
    split at h₁
    · rw [List.filterMap_cons, ih h.2]
      rfl
    · exact Bool.noConfusion h₁

theorem coerceClaims_canon : ∀ {l : List Json}, l.all canonClaim = true →
    coerceClaims l = .ok l := by
  intro l
  induction l with
  | nil => intro _; rfl
  | cons c rest ih =>
    intro h
    rw [List.all_cons, Bool.and_eq_true] at h
    have h₁ := h.1
    unfold canonClaim at h₁
    split at h₁
    · rename_i s₁ s₂ s₃ s₄ n
      simp only [inRange, Bool.and_eq_true, decide_eq_true_eq] at h₁
      unfold coerceClaims
      rw [show pyInt (dGet [("claim", Json.str s₁), ("classification", Json.str s₂),
            ("explanation", Json.str s₃), ("corrected_statement", Json.str s₄),
            ("confidence", Json.num n)] "confidence" (Json.num 50)) = some n from rfl,
        ih h.2]
      show Except.ok (Json.obj [("claim", Json.str s₁), ("classification", Json.str s₂),
          ("explanation", Json.str s₃), ("corrected_statement", Json.str s₄),
          ("confidence", Json.num (clamp 0 100 n))] :: rest) =
        Except.ok (Json.obj [("claim", Json.str s₁), ("classification", Json.str s₂),
          ("explanation", Json.str s₃), ("corrected_statement", Json.str s₄),
          ("confidence", Json.num n)] :: rest)
      rw [clamp_eq_self 0 100 n h₁.1 h₁.2]
    · exact Bool.noConfusion h₁

theorem extractBreakdown_canon {kvs : List (String × Json)} {sb : Json}
    (hget : dGet kvs "score_breakdown" (.obj []) = sb) (h : canonBreakdown sb = true) :
    extractBreakdown kvs = sb := by
  unfold canonBreakdown at h
  split at h
  · rename_i fa sc da ca
    simp only [inRange, Bool.and_eq_true, decide_eq_true_eq] at h
    obtain ⟨hfa, hsc, hda, hca⟩ := h
    unfold extractBreakdown
    rw [hget]
    show Json.obj [("factual_accuracy", Json.num (clamp 0 40 fa)),
        ("source_consistency", Json.num (clamp 0 30 sc)),
        ("detail_accuracy", Json.num (clamp 0 20 da)),
        ("context_accuracy", Json.num (clamp 0 10 ca))] =
      Json.obj [("factual_accuracy", Json.num fa), ("source_consistency", Json.num sc),
        ("detail_accuracy", Json.num da), ("context_accuracy", Json.num ca)]
    rw [clamp_eq_self 0 40 fa hfa.1 hfa.2, clamp_eq_self 0 30 sc hsc.1 hsc.2,
      clamp_eq_self 0 20 da hda.1 hda.2, clamp_eq_self 0 10 ca hca.1 hca.2]
  · exact Bool.noConfusion h

theorem extractBias_canon {kvs : List (String × Json)} {bd : Json}
    (hget : dGet kvs "bias_detection" (.obj []) = bd) (h : canonBias bd = true) :
    extractBias kvs = .ok bd := by
  unfold canonBias at h
  split at h
  · rename_i b t inds
    simp only [Bool.and_eq_true, decide_eq_true_eq] at h
    unfold extractBias
    rw [hget]
    show Except.ok (Json.obj [("detected", Json.bool b), ("type", Json.str t),
        ("indicators", Json.arr ((inds.take 5).map (fun i => Json.str (pyStr i))))]) =
      Except.ok (Json.obj [("detected", Json.bool b), ("type", Json.str t),
        ("indicators", Json.arr inds)])
    rw [List.take_of_length_le h.1, mapPyStr_id h.2]
  · exact Bool.noConfusion h

theorem extractEmotional_canon {kvs : List (String × Json)} {em : Json}
    (hget : dGet kvs "emotional_manipulation" (.obj []) = em)
    (h : canonEmotional em = true) : extractEmotional kvs = .ok em := by
  unfold canonEmotional at h
  split at h
  · rename_i b ts es
    simp only [Bool.and_eq_true, decide_eq_true_eq] at h
    obtain ⟨hts, hts', hes, hes'⟩ := h
    unfold extractEmotional
    rw [hget]
    show Except.ok (Json.obj [("detected", Json.bool b),
        ("tactics", Json.arr ((ts.take 5).map (fun t => Json.str (pyStr t)))),
        ("examples", Json.arr ((es.take 5).map (fun e => Json.str (pyStr e))))]) =
      Except.ok (Json.obj [("detected", Json.bool b), ("tactics", Json.arr ts),
        ("examples", Json.arr es)])
    rw [List.take_of_length_le hts, mapPyStr_id hts',
      List.take_of_length_le hes, mapPyStr_id hes']
  · exact Bool.noConfusion h

theorem extractSensational_canon {kvs : List (String × Json)} {st : Json}
    (hget : dGet kvs "sensational_tone" (.obj []) = st)
    (h : canonSensational st = true) : extractSensational kvs = .ok st := by
  unfold canonSensational at h
  split at h
  · rename_i b n inds
    simp only [inRange, Bool.and_eq_true, decide_eq_true_eq] at h
    obtain ⟨⟨hn1, hn2⟩, hil, hia⟩ := h
    unfold extractSensational
    rw [hget]
    show Except.ok (Json.obj [("detected", Json.bool b),
        ("score", Json.num (clamp 0 100 n)),
        ("indicators", Json.arr ((inds.take 5).map (fun i => Json.str (pyStr i))))]) =
      Except.ok (Json.obj [("detected", Json.bool b), ("score", Json.num n),
        ("indicators", Json.arr inds)])
    rw [clamp_eq_self 0 100 n hn1 hn2, List.take_of_length_le hil, mapPyStr_id hia]
  · exact Bool.noConfusion h

/-- The nine fields of a canonical record, in the key order the
normalizer itself emits. -/
def canonFields (a : Int) (fs ds es : List Json) (sb : Json) (cs : List Json)
    (bd em st : Json) : List (String × Json) :=
  [("authenticity_score", .num a), ("key_findings", .arr fs), ("differences", .arr ds),
   ("supporting_evidence", .arr es), ("score_breakdown", sb), ("claims_analysis", .arr cs),
   ("bias_detection", bd), ("emotional_manipulation", em), ("sensational_tone", st)]

theorem canonFields_normalize (a : Int) (fs ds es : List Json) (sb : Json) (cs : List Json)
    (bd em st : Json)
    (h : (inRange 0 100 a &&
      (decide (fs.length ≤ 3) && (fs.all isStrJ &&
      (decide (ds.length ≤ 3) && (ds.all isStrJ &&
      (decide (es.length ≤ 3) && (es.all canonEvidence &&
      (canonBreakdown sb &&
      (decide (cs.length ≤ 10) && (cs.all canonClaim &&
      (canonBias bd && (canonEmotional em && canonSensational st)))))))))))) = true) :
    normalize (canonFields a fs ds es sb cs bd em st) =
      .ok (.obj (canonFields a fs ds es sb cs bd em st)) := by
  simp only [Bool.and_eq_true, decide_eq_true_eq] at h
  obtain ⟨ha, hfsl, hfs, hdsl, hds, hesl, hes, hsb, hcsl, hcs, hbd, hem, hst⟩ := h
  have ha' : 0 ≤ a ∧ a ≤ 100 := by
    simpa [inRange, Bool.and_eq_true, decide_eq_true_eq] using ha
  have h1 : extractScore (canonFields a fs ds es sb cs bd em st) = a := by
    show clamp 0 100 a = a
    exact clamp_eq_self 0 100 a ha'.1 ha'.2
  have h2 : extractStrings3 (canonFields a fs ds es sb cs bd em st) "key_findings" = fs := by
    show (fs.take 3).map (fun f => Json.str (pyStr f)) = fs
    rw [List.take_of_length_le hfsl, mapPyStr_id hfs]
  have h3 : extractStrings3 (canonFields a fs ds es sb cs bd em st) "differences" = ds := by
    show (ds.take 3).map (fun f => Json.str (pyStr f)) = ds
    rw [List.take_of_length_le hdsl, mapPyStr_id hds]
  have h4 : extractEvidence (canonFields a fs ds es sb cs bd em st) = es := by
    show (es.take 3).filterMap coerceEvidence = es
    rw [List.take_of_length_le hesl]
    exact evidence_id hes
  have h5 : extractBreakdown (canonFields a fs ds es sb cs bd em st) = sb :=
    extractBreakdown_canon rfl hsb
  have h6 : extractClaims (canonFields a fs ds es sb cs bd em st) = .ok cs := by
    show coerceClaims (cs.take 10) = Except.ok cs
    rw [List.take_of_length_le hcsl]
    exact coerceClaims_canon hcs
  have h7 : extractBias (canonFields a fs ds es sb cs bd em st) = .ok bd :=
    extractBias_canon rfl hbd
  have h8 : extractEmotional (canonFields a fs ds es sb cs bd em st) = .ok em :=
    extractEmotional_canon rfl hem
  have h9 : extractSensational (canonFields a fs ds es sb cs bd em st) = .ok st :=
    extractSensational_canon rfl hst
  unfold normalize
  rw [h6, h7, h8, h9, h1, h2, h3, h4, h5]
  rfl

/-- C8: the Normalizer is idempotent. For every canonical record —
exactly the nine schema keys in the order the normalizer itself emits,
every field of its declared shape, every numeric in range and every
list within its length bound — treating the record as the parsed
candidate and normalizing it again returns the structurally identical
record. -/
theorem normalize_idempotent {kvs : List (String × Json)} (h : canonical kvs = true) :
    normalize kvs = .ok (.obj kvs) := by
  unfold canonical at h
  split at h
  · exact canonFields_normalize _ _ _ _ _ _ _ _ _ h
  all_goals exact Bool.noConfusion h

/-- A concrete canonical record. -/
def canonEx : List (String × Json) :=
  [("authenticity_score", .num 88),
   ("key_findings", .arr [.str "f1", .str "f2"]),
   ("differences", .arr [.str "d1"]),
   ("supporting_evidence", .arr [.obj [("quote", .str "q"), ("source", .str "s")]]),
   ("score_breakdown", .obj [("factual_accuracy", .num 35), ("source_consistency", .num 25),
     ("detail_accuracy", .num 18), ("context_accuracy", .num 10)]),
   ("claims_analysis", .arr [.obj [("claim", .str "c"),
     ("classification", .str "verified_true"), ("explanation", .str "e"),
     ("corrected_statement", .str ""), ("confidence", .num 90)]]),
   ("bias_detection", .obj [("detected", .bool true), ("type", .str "political"),
     ("indicators", .arr [.str "i1"])]),
   ("emotional_manipulation", .obj [("detected", .bool false), ("tactics", .arr []),
     ("examples", .arr [])]),
   ("sensational_tone", .obj [("detected", .bool true), ("score", .num 60),
     ("indicators", .arr [.str "x"])])]

/-- C8, witness: re-normalizing the concrete canonical record returns
it unchanged. -/
theorem normalize_idempotent_witness : normalize canonEx = .ok (.obj canonEx) :=
  normalize_idempotent (by rfl)

end VerifAI
